import Mathlib

/-
Verification of the ArticleVault document-assembly engine.

This file gives a shallow embedding, in Lean 4, of the parts of the
repository that the checked properties talk about:

  * the inline markup interpreter inside
    MSWord.create_page_bordered_docx (src/utils.py, lines 163-249),
  * the image rendering branch (src/utils.py, lines 251-287),
  * the image acquisition pipeline MSWord._temp_download_images
    (src/utils.py, lines 338-442),
  * the page-border injector MSWord._add_page_border
    (src/utils.py, lines 38-72),
  * the document assembler MSWord.create_page_bordered_docx
    (src/utils.py, lines 75-311),
  * structural validation ArticleDownloader.check_structure and the
    pipeline ArticleDownloader.run (src/scraper.py, lines 124-214).

Python strings are modelled as List Char; machine-level file-system and
network effects are modelled by an explicit state record and an oracle
environment.  Percentages are modelled as rationals.
-/

/-- Styled text run, as produced for a python-docx paragraph: the
`bold`/`italic` flags and the font size mirror `run.bold`, `run.italic`,
`run.font.size`; `heading` records the heading level of the containing
paragraph style (0 = body); `picture` records the local path of an image
embedded with `run.add_picture`, if any. -/
structure Run where
  text : List Char
  bold : Bool := false
  italic : Bool := false
  size : Option Nat := none
  heading : Nat := 0
  picture : Option String := none
deriving Repr, DecidableEq

/-- One output paragraph: its runs, its paragraph style (0 = body text,
1 = Heading 1, 2 = Heading 2) and whether it is centered. -/
structure Paragraph where
  runs : List Run
  style : Nat := 0
  center : Bool := false
deriving Repr, DecidableEq

/-- Index of the first occurrence of the two-character pattern `**`,
mirroring Python `s.find("**")` (None plays the role of -1). -/
def find2Star : List Char → Option Nat
  | '*' :: '*' :: _ => some 0
  | _ :: rest => (find2Star rest).map (· + 1)
  | [] => none

/-- Index of the first occurrence of character `c`, mirroring Python
`s.find(c)` (None plays the role of -1). -/
def findCharIdx (c : Char) : List Char → Option Nat
  | [] => none
  | x :: rest => if x = c then some 0 else (findCharIdx c rest).map (· + 1)

/-- Bold-span search of utils.py lines 210-213: the position `bs` of the
first `**` together with the distance `k` from just after it to the
closing `**`; `none` when either marker is missing. -/
def boldSpan (remaining : List Char) : Option (Nat × Nat) :=
  match find2Star remaining with
  | some bs =>
    match find2Star (remaining.drop (bs + 2)) with
    | some k => some (bs, k)
    | none => none
  | none => none

/-- Italic-span search of utils.py lines 228-232: the marker is `_` when
the text contains one, otherwise `*`; returns the marker, the position of
its first occurrence and the distance to its next occurrence. -/
def italicSpan (remaining : List Char) : Option (Char × Nat × Nat) :=
  let m := if remaining.contains '_' then '_' else '*'
  match findCharIdx m remaining with
  | some istart =>
    match findCharIdx m (remaining.drop (istart + 1)) with
    | some k => some (m, istart, k)
    | none => none
  | none => none

/-- Fuel-indexed version of the inline-formatting scan of utils.py lines
205-249 (the `while remaining_text:` loop).  Each loop iteration either
consumes a matched bold span, or a matched italic span, or emits the
whole remainder as one plain run and stops. -/
def inlineScanFuel : Nat → List Char → List Run
  | 0, _ => []
  | fuel + 1, remaining =>
    if remaining = [] then []
    else
      match boldSpan remaining with
      | some (bs, k) =>
        (if 0 < bs then [{ text := remaining.take bs }] else []) ++
        ({ text := (remaining.drop (bs + 2)).take k, bold := true } ::
          inlineScanFuel fuel (remaining.drop (bs + 2 + k + 2)))
      | none =>
        match italicSpan remaining with
        | some (_, istart, k) =>
          (if 0 < istart then [{ text := remaining.take istart }] else []) ++
          ({ text := (remaining.drop (istart + 1)).take k, italic := true } ::
            inlineScanFuel fuel (remaining.drop (istart + 1 + k + 1)))
        | none => [{ text := remaining }]

/-- The inline-formatting scan; length-plus-one fuel suffices (proved in
the termination theorem below). -/
def interpretInline (l : List Char) : List Run :=
  inlineScanFuel (l.length + 1) l

/-- Python `s.lstrip()`: drop leading whitespace. -/
def pyLstrip (l : List Char) : List Char := l.dropWhile Char.isWhitespace

/-- Python `s.strip()`: drop leading and trailing whitespace. -/
def pyStrip (l : List Char) : List Char :=
  ((l.dropWhile Char.isWhitespace).reverse.dropWhile Char.isWhitespace).reverse

/-- Python `s.lstrip(cs)`: drop leading characters that belong to the
character set `cs`. -/
def lstripChars (cs : List Char) (l : List Char) : List Char :=
  l.dropWhile (fun c => cs.contains c)

/-- Python `s.strip(cs)`: drop leading and trailing characters that
belong to the character set `cs`. -/
def stripChars (cs : List Char) (l : List Char) : List Char :=
  ((l.dropWhile (fun c => cs.contains c)).reverse.dropWhile (fun c => cs.contains c)).reverse

/-- Interpretation of one non-empty text block, mirroring utils.py lines
177-249: heading detection on the whitespace-lstripped text, whole-string
bold and italic wrappers (`strip` uses the character sets of Python
`strip("**")` and `strip("_*")`), and otherwise the inline scan. -/
def interpretText (tc : List Char) : Paragraph :=
  if ['#', '#'].isPrefixOf (pyLstrip tc) then
    { runs := [{ text := pyStrip (lstripChars ['#'] tc), bold := true,
                 size := some 14, heading := 2 }], style := 2 }
  else if ['#'].isPrefixOf (pyLstrip tc) then
    { runs := [{ text := pyStrip (lstripChars ['#'] tc), bold := true,
                 size := some 15, heading := 1 }], style := 1 }
  else if ['*', '*'].isPrefixOf tc && ['*', '*'].isSuffixOf tc then
    { runs := [{ text := stripChars ['*'] tc, bold := true }] }
  else if (['_'].isPrefixOf tc && ['_'].isSuffixOf tc) ||
          (['*'].isPrefixOf tc && ['*'].isSuffixOf tc) then
    { runs := [{ text := stripChars ['_', '*'] tc, italic := true }] }
  else
    { runs := interpretInline tc }

/-- One raw content block of the extracted-article dictionary: each field
is `none` when the corresponding key is absent from the block dict. -/
structure RawBlock where
  type : Option String := none
  content : Option String := none
  url : Option String := none
  alt_text : Option String := none
  caption : Option String := none
deriving Repr, DecidableEq

/-- The raw extracted-article dictionary: each field is `none` when the
corresponding top-level key is absent. -/
structure RawArticle where
  title : Option String := none
  date : Option String := none
  author : Option String := none
  content_blocks : Option (List RawBlock) := none
deriving Repr, DecidableEq

/-- Block-type field check of scraper.py line 161: the key must be
present and its value must be "text" or "image". -/
def validType : Option String → Bool
  | some t => t == "text" || t == "image"
  | none => false

/-- Per-block loop of ArticleDownloader.check_structure (scraper.py lines
158-167), raising on the first violated rule.  The single-quote
characters that surround key names in the Python messages are elided. -/
def checkBlocks : List RawBlock → Except String Bool
  | [] => .ok true
  | b :: rest =>
    if !(validType b.type) then
      .error "Each content block must have a valid type key"
    else if b.type == some "text" && b.content.isNone then
      .error "Text blocks must have a content key"
    else if b.type == some "image" &&
            (b.url.isNone || b.alt_text.isNone || b.caption.isNone) then
      .error "Image blocks must have url and alt_text keys"
    else
      checkBlocks rest

/-- ArticleDownloader.check_structure (scraper.py lines 124-170): the
required top-level keys, then the per-block rules, stopping at the first
violation.  The `isinstance` checks cannot fire in this typed embedding. -/
def check_structure (r : RawArticle) : Except String Bool :=
  if r.title.isNone || r.date.isNone || r.author.isNone || r.content_blocks.isNone then
    .error "Result must contain keys: title, date, author, content_blocks"
  else
    checkBlocks (r.content_blocks.getD [])

/-- Observable effects of one build: progress-callback invocations (with
their rational percentage), directory creation, image fetches, file
writes, recursive deletions and the final document save. -/
inductive Event where
  | progress (msg : String) (percent : ℚ)
  | makedirs (path : String)
  | fetch (url : String)
  | writeFile (path : String)
  | deleteTree (path : String)
  | save (path : String)
deriving Repr, DecidableEq

/-- Build state: the set of existing directories and files (the relevant
slice of the file system), the event trace, and the document body
paragraphs assembled so far. -/
structure BuildState where
  dirs : List String := []
  files : List String := []
  events : List Event := []
  doc : List Paragraph := []
deriving Repr, DecidableEq

/-- Progress-callback invocation (`progress_callback(msg, pct)`). -/
def report (w : BuildState) (msg : String) (pct : ℚ) : BuildState :=
  { w with events := w.events ++ [.progress msg pct] }

/-- Append one paragraph to the document body (`doc.add_paragraph`). -/
def addPara (w : BuildState) (p : Paragraph) : BuildState :=
  { w with doc := w.doc ++ [p] }

/-- Python `os.path.dirname` on character lists: everything before the
last slash (empty when there is no slash). -/
def dirnameChars (cs : List Char) : List Char :=
  match findCharIdx '/' cs.reverse with
  | some i => (cs.reverse.drop (i + 1)).reverse
  | none => []

/-- Python `os.path.dirname`. -/
def dirname (p : String) : String := String.mk (dirnameChars p.toList)

/-- Helper for `ancestors`, recursing on `os.path.dirname`. -/
def ancestorsAux : Nat → String → List String
  | 0, _ => []
  | n + 1, p => if p = "" then [] else ancestorsAux n (dirname p) ++ [p]

/-- The path itself and all its slash-separated ancestors, outermost
first; these are the directories `os.makedirs` creates. -/
def ancestors (p : String) : List String := ancestorsAux (p.length + 1) p

/-- Python `os.path.exists` over the modelled file system. -/
def pathExists (w : BuildState) (p : String) : Bool :=
  w.dirs.contains p || w.files.contains p

/-- Python `os.makedirs p`: create `p` and every missing ancestor. -/
def makedirs (w : BuildState) (p : String) : BuildState :=
  { w with dirs := w.dirs ++ (ancestors p).filter (fun d => !(w.dirs.contains d)),
           events := w.events ++ [.makedirs p] }

/-- Python `shutil.rmtree p`: remove the directory `p` and everything
under it. -/
def deleteTree (w : BuildState) (p : String) : BuildState :=
  { w with dirs := w.dirs.filter (fun d => !(d == p) && !((p ++ "/").isPrefixOf d)),
           files := w.files.filter (fun f => !((p ++ "/").isPrefixOf f)),
           events := w.events ++ [.deleteTree p] }

/-- Oracle environment for the effects that cross the process boundary:
whether the HTTP fetch (plus raw write) of a URL succeeds, whether Pillow
can decode and re-encode its bytes, the extension guessed from the
declared content type on the fallback path, the URL-derived file name
(basename of the parsed URL path plus the hash-derived suffix of
utils.py lines 381-388), and whether python-docx can embed a given local
image file. -/
structure ImgEnv where
  fetchOk : String → Bool
  decodeOk : String → Bool
  ext : String → String
  safeName : String → String
  embedOk : String → Bool

/-- Python-dict assignment `d[k] = v`: replace the value when the key is
present, otherwise append the binding. -/
def dictInsert (d : List (String × String)) (k v : String) : List (String × String) :=
  if d.any (fun p => p.1 == k) then
    d.map (fun p => if p.1 == k then (k, v) else p)
  else
    d ++ [(k, v)]

/-- Python-dict lookup `d.get(k, None)`. -/
def dictLookup (d : List (String × String)) (k : String) : Option String :=
  (d.find? (fun p => p.1 == k)).map (fun p => p.2)

/-- Number of entries of the dictionary model that carry key `k`. -/
def countKey (d : List (String × String)) (k : String) : Nat :=
  (d.filter (fun p => p.1 == k)).length

/-- Per-image loop of MSWord._temp_download_images (utils.py lines
373-439): report progress, fetch; on success, convert with Pillow to a
PNG, or fall back to the raw bytes under a guessed extension, and record
the entry in the dictionary; on failure, log and leave the dictionary
unchanged.  The temporary pre-conversion file (written and then removed
or renamed inside the loop) is modelled by its surviving final path. -/
def downloadLoop (env : ImgEnv) (download_path : String) (total : Nat) :
    List String → Nat → BuildState → List (String × String) →
      BuildState × List (String × String)
  | [], _, w, d => (w, d)
  | u :: rest, i, w, d =>
    let w := if 0 < total then
        report w ("Downloading image " ++ toString (i + 1) ++ "/" ++ toString total)
          (65 + ((i : ℚ) / (total : ℚ)) * 10)
      else w
    let w := { w with events := w.events ++ [.fetch u] }
    if env.fetchOk u then
      if env.decodeOk u then
        let finalPath := download_path ++ "/" ++ env.safeName u ++ ".png"
        let w := { w with files := w.files ++ [finalPath],
                          events := w.events ++ [.writeFile finalPath] }
        downloadLoop env download_path total rest (i + 1) w (dictInsert d u finalPath)
      else
        let finalPath := download_path ++ "/" ++ env.safeName u ++ env.ext u
        let w := { w with files := w.files ++ [finalPath],
                          events := w.events ++ [.writeFile finalPath] }
        downloadLoop env download_path total rest (i + 1) w (dictInsert d u finalPath)
    else
      downloadLoop env download_path total rest (i + 1) w d

/-- MSWord._temp_download_images (utils.py lines 338-442) on the
mandatory `url` fields of the image descriptors: create the download
directory when missing, then run the per-image loop; returns the URL to
local-path dictionary.  Pillow is importable in this repository, so
`has_pillow` is true. -/
def temp_download_images (env : ImgEnv) (images : List String)
    (download_path : String) (w : BuildState) :
    BuildState × List (String × String) :=
  let w := if pathExists w download_path then w else makedirs w download_path
  downloadLoop env download_path images.length images 0 w []

/-- Rendering of one text block (utils.py lines 171-249): a missing
`content` key raises; an empty content string yields no paragraph;
otherwise the markup interpreter produces exactly one paragraph. -/
def renderTextBlock (b : RawBlock) : Except String (List Paragraph) :=
  match b.content with
  | none => .error "KeyError: content"
  | some c => if c = "" then .ok [] else .ok [interpretText c.toList]

/-- Rendering of one image block (utils.py lines 251-287): a centered
paragraph; when the URL was acquired and the file exists, the picture is
embedded and a non-empty caption becomes a separate centered italic
paragraph; when embedding throws, an italic placeholder run is emitted
and a non-empty caption is appended to the same paragraph as plain text
after a newline; when the URL was never acquired (or the file is gone),
only an italic placeholder run is emitted. -/
def renderImageBlock (env : ImgEnv) (images : List (String × String))
    (files : List String) (b : RawBlock) : Except String (List Paragraph) :=
  match b.url with
  | none => .error "KeyError: url"
  | some u =>
    let caption := b.caption.getD ""
    match dictLookup images u with
    | some ip =>
      if files.contains ip then
        if env.embedOk ip then
          .ok ([{ runs := [{ text := [], picture := some ip }], center := true }] ++
            (if caption == "" then []
             else [{ runs := [{ text := caption.toList, italic := true }], center := true }]))
        else
          .ok [{ runs := [{ text := "[Image could not be displayed]".toList, italic := true }] ++
                         (if caption == "" then [] else [{ text := ('\n' :: caption.toList) }]),
                 center := true }]
      else
        .ok [{ runs := [{ text := "[Image unavailable]".toList, italic := true }],
               center := true }]
    | none =>
      .ok [{ runs := [{ text := "[Image unavailable]".toList, italic := true }],
             center := true }]

/-- Content-block loop of utils.py lines 163-287: every fifth block
reports a progress tick scaled from 80 to 90, then the block is rendered
according to its type (unknown keys raise, other type values are
skipped). -/
def renderBlocksLoop (env : ImgEnv) (images : List (String × String)) (total : Nat) :
    List RawBlock → Nat → BuildState → BuildState × Except String Unit
  | [], _, w => (w, .ok ())
  | b :: rest, i, w =>
    let w := if i % 5 = 0 then
        report w ("Creating document content (" ++ toString i ++ "/" ++ toString total ++ ")...")
          (80 + ((i : ℚ) / (total : ℚ)) * 10)
      else w
    match b.type with
    | none => (w, .error "KeyError: type")
    | some t =>
      let rendered : Except String (List Paragraph) :=
        if t == "text" then renderTextBlock b
        else if t == "image" then renderImageBlock env images w.files b
        else .ok []
      match rendered with
      | .error e => (w, .error e)
      | .ok ps =>
        renderBlocksLoop env images total rest (i + 1) { w with doc := w.doc ++ ps }

/-- Collect the mandatory `url` field of each image descriptor, as read
by `image["url"]` in the download loop (utils.py line 374); in this model
a missing key surfaces before the loop runs. -/
def urlsOf : List RawBlock → Except String (List String)
  | [] => .ok []
  | b :: rest =>
    match b.url with
    | none => .error "KeyError: url"
    | some u => (urlsOf rest).map (fun us => u :: us)

/-- MSWord.create_page_bordered_docx (utils.py lines 75-311): derive the
session paths, create the directory returned by
`os.path.dirname("temp/" ++ uuid)` when missing (note that this is
`"temp"`, not the session directory), acquire images when any image
blocks exist, build the shell (title, optional date, source URL), walk
the content blocks, delete the image scratch directory when images were
acquired, and save the document -- the save succeeds only when its parent
directory exists.  Page margins, header/footer and the page border do
not touch the modelled observables and are treated separately. -/
def create_page_bordered_docx (env : ImgEnv) (uuid filename : String)
    (content : RawArticle) (url : String) (w : BuildState) :
    BuildState × Except String String :=
  let image_session_path := "temp/" ++ uuid ++ "/temp_images"
  let docx_session_path := "temp/" ++ uuid ++ "/" ++ filename
  let w := if pathExists w (dirname ("temp/" ++ uuid)) then w
           else makedirs w (dirname ("temp/" ++ uuid))
  match content.content_blocks with
  | none => (w, .error "KeyError: content_blocks")
  | some blocks =>
    let image_blocks := blocks.filter (fun b => b.type == some "image")
    let dl : Except String (BuildState × List (String × String)) :=
      if image_blocks.isEmpty then .ok (w, [])
      else
        match urlsOf image_blocks with
        | .error e => .error e
        | .ok urls =>
          let w := report w "Downloading images..." 65
          let wi := temp_download_images env urls image_session_path w
          .ok (report wi.1 "Images downloaded successfully" 75, wi.2)
    match dl with
    | .error e => (w, .error e)
    | .ok (w, images) =>
      let w := report w "Creating document structure..." 80
      let w := addPara w { runs := [{ text := (content.title.getD "").toList, bold := true,
                                      size := some 16 }], center := true }
      let date := content.date.getD ""
      let w := if date == "" then w
               else addPara w { runs := [{ text := date.toList, italic := true }], center := true }
      let w := addPara w { runs := [{ text := url.toList, italic := true }] }
      match renderBlocksLoop env images blocks.length blocks 0 w with
      | (w, .error e) => (w, .error e)
      | (w, .ok _) =>
        let w := if image_blocks.isEmpty then w else deleteTree w image_session_path
        let w := report w "Saving document..." 95
        if w.dirs.contains (dirname docx_session_path) then
          let w := { w with files := w.files ++ [docx_session_path],
                            events := w.events ++ [.save docx_session_path] }
          let w := report w "Document saved successfully" 98
          (w, .ok ("Document with page border saved as " ++ filename))
        else
          (w, .error ("No such file or directory: " ++ docx_session_path))

/-- ArticleDownloader.run (scraper.py lines 176-214), with the external
scrape step (an LLM-driven collaborator) supplied as the already
extracted `result`: report the fixed milestones, validate, build the
document through create_docx (scraper.py lines 96-122, which fixes the
file name), and return the file name, the article and the session
path. -/
def ArticleDownloader.run (env : ImgEnv) (unique_id url : String)
    (result : RawArticle) (w : BuildState) :
    BuildState × Except String (String × RawArticle × String) :=
  let w := report w "Initializing article extraction..." 10
  let w := report w "Article content extracted successfully" 40
  match check_structure result with
  | .error e =>
    let w := report w ("Error: " ++ e) 100
    (w, .error ("Invalid result structure: " ++ e))
  | .ok _ =>
    let w := report w "Article structure validated" 50
    let w := report w "Creating DOCX document..." 60
    let filename := "article_with_border.docx"
    match create_page_bordered_docx env unique_id filename result url w with
    | (w, .error e) => (w, .error e)
    | (w, .ok _) =>
      let w := report w "DOCX document created successfully" 90
      let path := "temp/" ++ unique_id ++ "/" ++ filename
      let w := report w "Process complete!" 100
      (w, .ok (filename, result, path))

/-- The percentage sequence of an event trace, in order. -/
def percentsOf (events : List Event) : List ℚ :=
  events.filterMap (fun e => match e with | .progress _ p => some p | _ => none)

/-- Monotone non-decrease of a percentage sequence: every element is at
most the next one. -/
def nondecr (l : List ℚ) : Prop := List.Chain' (fun a b => a ≤ b) l

/-- Hex rendering of one color component, Python `f"..:02x.."`:
lowercase hex digits, left-padded to width two. -/
def hex2 (n : Nat) : String :=
  let ds := Nat.toDigits 16 n
  String.mk (if ds.length < 2 then '0' :: ds else ds)

/-- One `w:top`/`w:left`/`w:bottom`/`w:right` border element with the
attributes set by MSWord._add_page_border (utils.py lines 61-67). -/
structure BorderEdge where
  edge : String
  val : String
  sz : String
  space : String
  color : String
deriving Repr, DecidableEq

/-- A child element of a section-properties (`sectPr`) node: either a
`w:pgBorders` page-border fragment or any other element, identified by
its tag. -/
inductive SectChild where
  | pgBorders (offsetFrom : String) (edges : List BorderEdge)
  | other (tag : String)
deriving Repr, DecidableEq

/-- Tag test used by `sectPr.find(qn("w:pgBorders"))`. -/
def isPgBorders : SectChild → Bool
  | .pgBorders _ _ => true
  | .other _ => false

/-- The `w:pgBorders` element built at utils.py lines 57-67: offset from
the page, one single-line border per edge with the given size and
color. -/
def mkPgBorders (hexColor : String) (width : Nat) : SectChild :=
  .pgBorders "page" (["top", "left", "bottom", "right"].map
    (fun t => { edge := t, val := "single", sz := toString width, space := "0",
                color := hexColor }))

/-- `sectPr.remove(sectPr.find(qn("w:pgBorders")))`: remove the first
page-border child. -/
def removeFirstPg : List SectChild → List SectChild
  | [] => []
  | x :: rest => if isPgBorders x then rest else x :: removeFirstPg rest

/-- Per-section body of MSWord._add_page_border (utils.py lines 53-72):
when a page-border child exists, remove the first one, then append the
freshly built one. -/
def applyBorderSect (hexColor : String) (width : Nat)
    (sectPr : List SectChild) : List SectChild :=
  (if sectPr.any isPgBorders then removeFirstPg sectPr else sectPr) ++
    [mkPgBorders hexColor width]

/-- MSWord._add_page_border (utils.py lines 38-72) over a document given
as the list of its sections (each a `sectPr` child list). -/
def add_page_border (doc : List (List SectChild)) (border_color : Nat × Nat × Nat)
    (border_width : Nat) : List (List SectChild) :=
  let hex_color := hex2 border_color.1 ++ hex2 border_color.2.1 ++ hex2 border_color.2.2
  doc.map (fun sectPr => applyBorderSect hex_color border_width sectPr)

/-- Number of page-border children of one section. -/
def countPg (sectPr : List SectChild) : Nat := sectPr.countP isPgBorders

/-- The final local path an acquired image ends at: PNG after a
successful Pillow conversion, otherwise the raw bytes under the guessed
extension (utils.py lines 407 and 425). -/
def finalPathOf (env : ImgEnv) (download_path u : String) : String :=
  download_path ++ "/" ++ env.safeName u ++
    (if env.decodeOk u then ".png" else env.ext u)

/-- The paragraphs that the content-block loop emits for the text blocks
of a block list, in order (the image-block paragraphs are excluded);
text blocks whose rendering would raise contribute nothing here. -/
def textParagraphs : List RawBlock → List Paragraph
  | [] => []
  | b :: rest =>
    (if b.type == some "text" then
      match renderTextBlock b with
      | .ok ps => ps
      | .error _ => []
     else []) ++ textParagraphs rest

/-- Oracle environment in which every fetch, decode and embed fails. -/
def noEnv : ImgEnv :=
  { fetchOk := fun _ => false, decodeOk := fun _ => false, ext := fun _ => ".jpg",
    safeName := fun _ => "img", embedOk := fun _ => false }

/-- Oracle environment in which exactly the URL "good" fetches
successfully and decodes. -/
def envW : ImgEnv :=
  { fetchOk := fun u => u == "good", decodeOk := fun _ => true, ext := fun _ => ".jpg",
    safeName := fun _ => "n", embedOk := fun _ => true }

/-- The end-to-end test article of the specification: title T, empty
date, author NA, a single text block and no images. -/
def helloArticle : RawArticle :=
  { title := some "T", date := some "", author := some "NA",
    content_blocks := some [{ type := some "text", content := some "Hello" }] }

/-- An article whose only block is a text block with no content key. -/
def badTextArticle : RawArticle :=
  { title := some "t", date := some "d", author := some "a",
    content_blocks := some [{ type := some "text" }] }

/-- An article whose only block is an image block that has a url but no
alt_text and no caption key. -/
def badImageArticle : RawArticle :=
  { title := some "t", date := some "d", author := some "a",
    content_blocks := some [{ type := some "image", url := some "x" }] }

/-- An article with both an invalid text block and an invalid image
block, in that order. -/
def badBothArticle : RawArticle :=
  { title := some "t", date := some "d", author := some "a",
    content_blocks := some [{ type := some "text" },
                            { type := some "image", url := some "x" }] }

/-- An image block with a non-empty caption. -/
def imgBlockFix : RawBlock :=
  { type := some "image", url := some "http://i", alt_text := some "a",
    caption := some "c" }

/-- Block list with a non-empty text block, an empty text block, an
image block and another non-empty text block. -/
def demoBlocks : List RawBlock :=
  [{ type := some "text", content := some "Hello" },
   { type := some "text", content := some "" },
   { type := some "image", url := some "http://i", alt_text := some "a", caption := some "c" },
   { type := some "text", content := some "x **y**" }]



/-
Claim theorems.
-/

example : interpretText ("## Head".toList) =
    { runs := [{ text := "Head".toList, bold := true, size := some 14, heading := 2 }],
      style := 2 } := by decide

example : interpretText ("a **b** c".toList) =
    { runs := [{ text := "a ".toList }, { text := "b".toList, bold := true },
               { text := " c".toList }] } := by decide

example : dirname "temp/u" = "temp" := by decide

example : ancestors "temp/u/temp_images" = ["temp", "temp/u", "temp/u/temp_images"] := by decide

example : hex2 150 ++ hex2 42 ++ hex2 46 = "962a2e" := by decide

/-- C1: for the article with title T, empty date, author NA and a single
text block (no images), starting from an empty file-system slice, the
image-acquisition stage is indeed skipped (no fetch, no write, no image
download milestone), but the build FAILS at the save step: the only
directory ever created is `temp` -- the directory returned by
`os.path.dirname("temp/" ++ uuid)` -- so the session directory `temp/u`
does not exist when `doc.save` opens `temp/u/article_with_border.docx`,
and the claimed success does not occur. -/
theorem c1_no_image_build_fails_missing_session_dir :
    (ArticleDownloader.run noEnv "u" "http://e" helloArticle {}).2
      = .error "No such file or directory: temp/u/article_with_border.docx"
    ∧ (ArticleDownloader.run noEnv "u" "http://e" helloArticle {}).1.dirs = ["temp"]
    ∧ (ArticleDownloader.run noEnv "u" "http://e" helloArticle {}).1.files = []
    ∧ (ArticleDownloader.run noEnv "u" "http://e" helloArticle {}).1.events.all
        (fun e => match e with
          | .fetch _ => false
          | .writeFile _ => false
          | .save _ => false
          | .progress m _ => !(m == "Downloading images...")
          | _ => true) = true :=
  ⟨rfl, rfl, rfl, rfl⟩

/-- C2: on a run that completes successfully (the session directory is
already present, as a previous image-bearing run leaves it), the
percentage sequence handed to the progress callback is
10, 40, 50, 60, 80, 80, 95, 98, 90, 100: the save milestones 95 and 98
inside create_page_bordered_docx are followed by the post-call milestone
90 of ArticleDownloader.run, so the sequence is not monotonically
non-decreasing. -/
theorem c2_progress_percentages_not_monotone :
    (ArticleDownloader.run noEnv "u" "http://e" helloArticle
        { dirs := ["temp", "temp/u"] }).2
      = .ok ("article_with_border.docx", helloArticle, "temp/u/article_with_border.docx")
    ∧ percentsOf (ArticleDownloader.run noEnv "u" "http://e" helloArticle
        { dirs := ["temp", "temp/u"] }).1.events
      = [10, 40, 50, 60, 80, 80 + (((0 : Nat) : ℚ) / ((1 : Nat) : ℚ)) * 10, 95, 98, 90, 100]
    ∧ ¬ nondecr (percentsOf (ArticleDownloader.run noEnv "u" "http://e" helloArticle
        { dirs := ["temp", "temp/u"] }).1.events) := by
  refine ⟨rfl, rfl, ?_⟩
  have h : percentsOf (ArticleDownloader.run noEnv "u" "http://e" helloArticle
      { dirs := ["temp", "temp/u"] }).1.events
      = [10, 40, 50, 60, 80, 80 + (((0 : Nat) : ℚ) / ((1 : Nat) : ℚ)) * 10, 95, 98, 90, 100] := rfl
  rw [h, nondecr]
  intro hc
  simp [List.chain'_cons] at hc
  norm_num at hc

/-- C3 counterexample: interpreting "**oops" does not give one plain run
equal to the input; it gives two runs, an empty italic run (the two
asterisks are consumed as an empty single-star italic span) followed by
a plain run "oops". -/
theorem c3_unmatched_marker_counterexample :
    (interpretText ("**oops".toList)).runs
      = [{ text := [], italic := true }, { text := "oops".toList }]
    ∧ ¬ (interpretText ("**oops".toList)).runs.length = 1 :=
  ⟨by decide, by decide⟩

/-- C3 amended: interpreting the paragraph text "**oops" produces,
without any error, exactly two runs: an empty italic run (the opening
`**` with no matching close is consumed as an empty `*`..`*` italic
span) followed by a plain run "oops"; the surviving text carries no
styling. -/
theorem c3_unmatched_marker_amended :
    interpretText ("**oops".toList)
      = { runs := [{ text := [], italic := true }, { text := "oops".toList }] } := by
  decide

/-- C5 counterexample: for the input "  ## Head" (leading whitespace
before the heading marker) the single heading run keeps the two hash
characters: its text is "## Head", not "Head", because
`text.lstrip("#")` strips nothing from a string that starts with a
space. -/
theorem c5_leading_whitespace_counterexample :
    (interpretText ("  ## Head".toList)).runs.map (fun r => r.text)
      = ["## Head".toList]
    ∧ ¬ (interpretText ("  ## Head".toList)).runs.map (fun r => r.text)
      = ["Head".toList] :=
  ⟨by decide, by decide⟩

/-- C5 amended: when the whitespace-lstripped text starts with `##`,
interpretation yields a single bold, size-14, heading-level-2 run whose
text is the RAW text with its leading hash characters stripped and then
whitespace-trimmed (Python `text.lstrip("#").strip()`); hence "## Head"
yields run text "Head", while "  ## Head" (leading whitespace) yields
run text "## Head" with the hash marks retained. -/
theorem c5_heading_amended :
    (∀ tc : List Char, ['#', '#'].isPrefixOf (pyLstrip tc) = true →
      interpretText tc =
        { runs := [{ text := pyStrip (lstripChars ['#'] tc), bold := true,
                     size := some 14, heading := 2 }], style := 2 })
    ∧ interpretText ("## Head".toList) =
        { runs := [{ text := "Head".toList, bold := true, size := some 14, heading := 2 }],
          style := 2 }
    ∧ interpretText ("  ## Head".toList) =
        { runs := [{ text := "## Head".toList, bold := true, size := some 14, heading := 2 }],
          style := 2 } := by
  refine ⟨?_, by decide, by decide⟩
  intro tc h
  simp [interpretText, h]

/-- C5 witness: the general heading rule applied at the concrete input
"## W2". -/
theorem c5_heading_witness :
    interpretText ("## W2".toList) =
      { runs := [{ text := pyStrip (lstripChars ['#'] ("## W2".toList)), bold := true,
                   size := some 14, heading := 2 }], style := 2 } :=
  c5_heading_amended.1 ("## W2".toList) (by decide)

/-- C8: validation precedes all rendering and file I/O and stops at the
first violated rule.  A text block with no content key makes the whole
pipeline abort with the message naming the content key, an image block
missing alt_text/caption aborts with the message naming the image-field
requirement, and when both kinds of violation are present only the first
one is reported.  In each aborted run the event trace consists of the
three pre-render progress milestones only -- no directory is created, no
file is written, nothing is fetched or saved. -/
theorem c8_validation_first_rule_no_io :
    (ArticleDownloader.run noEnv "u" "http://e" badTextArticle {}).2
      = .error "Invalid result structure: Text blocks must have a content key"
    ∧ (ArticleDownloader.run noEnv "u" "http://e" badTextArticle {}).1.events
      = [.progress "Initializing article extraction..." 10,
         .progress "Article content extracted successfully" 40,
         .progress "Error: Text blocks must have a content key" 100]
    ∧ (ArticleDownloader.run noEnv "u" "http://e" badTextArticle {}).1.dirs = []
    ∧ (ArticleDownloader.run noEnv "u" "http://e" badTextArticle {}).1.files = []
    ∧ (ArticleDownloader.run noEnv "u" "http://e" badImageArticle {}).2
      = .error "Invalid result structure: Image blocks must have url and alt_text keys"
    ∧ (ArticleDownloader.run noEnv "u" "http://e" badImageArticle {}).1.events
      = [.progress "Initializing article extraction..." 10,
         .progress "Article content extracted successfully" 40,
         .progress "Error: Image blocks must have url and alt_text keys" 100]
    ∧ (ArticleDownloader.run noEnv "u" "http://e" badBothArticle {}).2
      = .error "Invalid result structure: Text blocks must have a content key" :=
  ⟨rfl, rfl, rfl, rfl, rfl, rfl, rfl⟩

/-- C4 counterexample: for an image block whose URL is absent from the
acquired map and whose caption "c" is non-empty, rendering emits the
centered paragraph with the single italic "[Image unavailable]" run and
nothing else -- the caption is NOT appended anywhere, contradicting the
claim that in both failure cases a non-empty caption is still appended. -/
theorem c4_missing_caption_counterexample :
    renderImageBlock noEnv [] [] imgBlockFix
      = .ok [{ runs := [{ text := "[Image unavailable]".toList, italic := true }],
               center := true }]
    ∧ ((renderImageBlock noEnv [] [] imgBlockFix).toOption.getD []).map
        (fun p => p.runs.length) = [1]
    ∧ imgBlockFix.caption = some "c" :=
  ⟨rfl, rfl, rfl⟩

/-- C4 amended: an image block whose URL is absent from the acquired map
renders as the italicized "[Image unavailable]" placeholder run in the
centered paragraph, with no caption appended; the distinct
"[Image could not be displayed]" placeholder is used when embedding an
acquired image throws, and only in that case is a non-empty caption
still appended (as a plain run, newline plus caption, in the same
paragraph). -/
theorem c4_image_placeholders_amended :
    (∀ (env : ImgEnv) (images : List (String × String)) (files : List String)
       (b : RawBlock) (u : String), b.url = some u → dictLookup images u = none →
       renderImageBlock env images files b =
         .ok [{ runs := [{ text := "[Image unavailable]".toList, italic := true }],
                center := true }])
    ∧ (∀ (env : ImgEnv) (images : List (String × String)) (files : List String)
        (b : RawBlock) (u p c : String), b.url = some u → b.caption = some c →
        ¬ c = "" → dictLookup images u = some p → files.contains p = true →
        env.embedOk p = false →
        renderImageBlock env images files b =
          .ok [{ runs := [{ text := "[Image could not be displayed]".toList, italic := true },
                          { text := ('\n' :: c.toList) }], center := true }]) := by
  constructor
  · intro env images files b u hu hl
    simp [renderImageBlock, hu, hl]
  · intro env images files b u p c hu hcap hc hl hf he
    have hm : p ∈ files := by simpa using hf
    simp [renderImageBlock, hu, hcap, hc, hl, hf, he, hm]

/-- C4 witness: the two placeholder rules applied at concrete inputs --
an empty acquisition map, and a map carrying the URL with a file the
embed oracle rejects. -/
theorem c4_image_placeholders_witness :
    renderImageBlock noEnv [] [] imgBlockFix
      = .ok [{ runs := [{ text := "[Image unavailable]".toList, italic := true }],
               center := true }]
    ∧ renderImageBlock noEnv [("http://i", "p.png")] ["p.png"] imgBlockFix
      = .ok [{ runs := [{ text := "[Image could not be displayed]".toList, italic := true },
                        { text := ('\n' :: "c".toList) }], center := true }] :=
  ⟨c4_image_placeholders_amended.1 noEnv [] [] imgBlockFix "http://i" rfl rfl,
   c4_image_placeholders_amended.2 noEnv [("http://i", "p.png")] ["p.png"] imgBlockFix
     "http://i" "p.png" "c" rfl rfl (by decide) rfl (by decide) rfl⟩

/-- C9: for every block list whose text blocks all carry a content key
(what validation guarantees), the number of paragraphs the renderer
emits for text blocks equals the number of text blocks with non-empty
content: a non-empty text block yields exactly one paragraph and an
empty one yields none. -/
theorem c9_text_paragraph_count (blocks : List RawBlock)
    (h : ∀ b ∈ blocks, b.type = some "text" → b.content ≠ none) :
    (textParagraphs blocks).length
      = (blocks.filter (fun b => b.type == some "text"
          && !(b.content.getD "" == ""))).length := by
  induction blocks with
  | nil => rfl
  | cons b rest ih =>
    have hrest : ∀ x ∈ rest, x.type = some "text" → x.content ≠ none :=
      fun x hx => h x (List.mem_cons_of_mem b hx)
    by_cases ht : b.type = some "text"
    · have hc : b.content ≠ none := h b (List.mem_cons_self b rest) ht
      obtain ⟨c, hcc⟩ := Option.ne_none_iff_exists'.mp hc
      by_cases hce : c = ""
      · simp [textParagraphs, ht, renderTextBlock, hcc, hce, List.filter_cons, ih hrest]
      · simp [textParagraphs, ht, renderTextBlock, hcc, hce, List.filter_cons, ih hrest]
    · have ht2 : ¬ b.type == some "text" := by simpa using ht
      simp [textParagraphs, ht2, List.filter_cons, ih hrest]

/-- C9 witness: the count rule applied to the concrete demo block list
(two non-empty text blocks, one empty text block, one image block). -/
theorem c9_text_paragraph_count_witness :
    (textParagraphs demoBlocks).length
      = (demoBlocks.filter (fun b => b.type == some "text"
          && !(b.content.getD "" == ""))).length :=
  c9_text_paragraph_count demoBlocks (by decide)

/-- Removing the first page-border child decrements the page-border
count by one, provided one is present. -/
theorem countPg_removeFirstPg (l : List SectChild) (h : l.any isPgBorders = true) :
    countPg (removeFirstPg l) = countPg l - 1 := by
  induction l with
  | nil => simp at h
  | cons x xs ih =>
    by_cases hx : isPgBorders x
    · simp [removeFirstPg, hx, countPg, List.countP_cons]
    · have hxs : xs.any isPgBorders = true := by
        simpa [List.any_cons, hx] using h
      simpa [removeFirstPg, hx, countPg, List.countP_cons] using ih hxs

/-- The freshly built page-border element is a page-border child. -/
theorem countPg_mkPgBorders (hexColor : String) (wd : Nat) :
    countPg [mkPgBorders hexColor wd] = 1 := by
  simp [countPg, mkPgBorders, isPgBorders]

/-- One application of the per-section border patch leaves exactly one
page-border child when at most one was present before. -/
theorem countPg_applyBorderSect (hexColor : String) (wd : Nat) (s : List SectChild)
    (h : countPg s ≤ 1) : countPg (applyBorderSect hexColor wd s) = 1 := by
  unfold applyBorderSect
  by_cases ha : s.any isPgBorders
  · rw [if_pos ha]
    have hr := countPg_removeFirstPg s ha
    have h1 : 0 < countPg s := by
      obtain ⟨x, hx, hpx⟩ := List.any_eq_true.mp ha
      exact List.countP_pos_iff.mpr ⟨x, hx, hpx⟩
    have h2 := countPg_mkPgBorders hexColor wd
    have h3 := List.countP_append isPgBorders (removeFirstPg s) [mkPgBorders hexColor wd]
    unfold countPg at h hr h1 h2
    unfold countPg
    omega
  · rw [if_neg ha]
    have hfalse : s.any isPgBorders = false := by simpa using ha
    have h0 : countPg s = 0 :=
      List.countP_eq_zero.mpr (List.any_eq_false.mp hfalse)
    have h2 := countPg_mkPgBorders hexColor wd
    have h3 := List.countP_append isPgBorders s [mkPgBorders hexColor wd]
    unfold countPg at h0 h2
    unfold countPg
    omega

/-- C7: on a document in which each section carries at most one
page-border definition (true in particular of freshly created
documents, which carry none), applying the page-border injection twice
in succession leaves exactly one page-border definition per section:
the injection removes the pre-existing fragment before appending the
new one, so reapplication replaces rather than duplicates. -/
theorem c7_page_border_idempotent (doc : List (List SectChild))
    (bc : Nat × Nat × Nat) (wd : Nat) (h : ∀ s ∈ doc, countPg s ≤ 1) :
    ∀ s ∈ add_page_border (add_page_border doc bc wd) bc wd, countPg s = 1 := by
  intro s hs
  simp only [add_page_border, List.map_map, List.mem_map, Function.comp] at hs
  obtain ⟨s0, hs0, rfl⟩ := hs
  have h1 := countPg_applyBorderSect (hex2 bc.1 ++ hex2 bc.2.1 ++ hex2 bc.2.2) wd s0 (h s0 hs0)
  exact countPg_applyBorderSect _ wd _ (by rw [h1])

/-- C7 witness: the double application evaluated on a one-section
document holding a single non-border child. -/
theorem c7_page_border_witness :
    countPg ((add_page_border (add_page_border [[SectChild.other "pgSz"]] (150, 42, 46) 200)
        (150, 42, 46) 200).headD []) = 1 :=
  c7_page_border_idempotent [[SectChild.other "pgSz"]] (150, 42, 46) 200 (by decide)
    _ (by decide)

/-- Looking up `k` after the in-place replacement `d[k] = v` performed on
a dictionary that contains `k`. -/
theorem dictLookup_map_replace_self (d : List (String × String)) (k v : String)
    (h : d.any (fun x => x.1 == k) = true) :
    dictLookup (d.map (fun x => if x.1 == k then (k, v) else x)) k = some v := by
  induction d with
  | nil => simp at h
  | cons p rest ih =>
    simp only [List.map_cons]
    by_cases hp : (p.1 == k) = true
    · rw [if_pos hp]
      unfold dictLookup
      rw [List.find?_cons_of_pos _ (by simp)]
      rfl
    · rw [if_neg hp]
      have hr : rest.any (fun x => x.1 == k) = true := by
        simpa [List.any_cons, hp] using h
      unfold dictLookup
      rw [List.find?_cons_of_neg _ (by simpa using hp)]
      exact ih hr

/-- Looking up `k` after appending the fresh binding `(k, v)` to a
dictionary that does not contain `k`. -/
theorem dictLookup_append_self (d : List (String × String)) (k v : String)
    (h : d.any (fun x => x.1 == k) = false) :
    dictLookup (d ++ [(k, v)]) k = some v := by
  induction d with
  | nil =>
    unfold dictLookup
    rw [List.nil_append, List.find?_cons_of_pos _ (by simp)]
    rfl
  | cons p rest ih =>
    have hp : (p.1 == k) = false := by
      by_cases hc : (p.1 == k) = true
      · simp [List.any_cons, hc] at h
      · simpa using hc
    have hr : rest.any (fun x => x.1 == k) = false := by
      simpa [List.any_cons, hp] using h
    rw [List.cons_append]
    unfold dictLookup
    rw [List.find?_cons_of_neg _ (by simp [hp])]
    exact ih hr

/-- Looking up the just-assigned key returns the assigned value. -/
theorem dictLookup_insert_self (d : List (String × String)) (k v : String) :
    dictLookup (dictInsert d k v) k = some v := by
  unfold dictInsert
  by_cases ha : d.any (fun x => x.1 == k)
  · rw [if_pos ha]; exact dictLookup_map_replace_self d k v ha
  · rw [if_neg ha]
    exact dictLookup_append_self d k v (Bool.eq_false_iff.mpr ha)

/-- The in-place replacement `d[k] = v` leaves the lookup of every other
key unchanged. -/
theorem dictLookup_map_replace_other (d : List (String × String)) (k v u : String)
    (h : ¬ u = k) :
    dictLookup (d.map (fun x => if x.1 == k then (k, v) else x)) u = dictLookup d u := by
  have hku : (k == u) = false := beq_eq_false_iff_ne.mpr (fun he => h he.symm)
  induction d with
  | nil => rfl
  | cons p rest ih =>
    simp only [List.map_cons]
    by_cases hp : (p.1 == k) = true
    · have hpk : p.1 = k := by simpa using hp
      rw [if_pos hp]
      unfold dictLookup
      rw [List.find?_cons_of_neg _ (by simp [hku]),
          List.find?_cons_of_neg _ (by simp [hpk, hku])]
      exact ih
    · rw [if_neg hp]
      by_cases hpu : (p.1 == u) = true
      · unfold dictLookup
        rw [List.find?_cons_of_pos _ (by simpa using hpu),
            List.find?_cons_of_pos _ (by simpa using hpu)]
      · unfold dictLookup
        rw [List.find?_cons_of_neg _ (by simpa using hpu),
            List.find?_cons_of_neg _ (by simpa using hpu)]
        exact ih

/-- Appending a binding for `k` leaves the lookup of every other key
unchanged. -/
theorem dictLookup_append_other (d : List (String × String)) (k v u : String)
    (h : ¬ u = k) :
    dictLookup (d ++ [(k, v)]) u = dictLookup d u := by
  have hku : (k == u) = false := beq_eq_false_iff_ne.mpr (fun he => h he.symm)
  induction d with
  | nil =>
    unfold dictLookup
    rw [List.nil_append, List.find?_cons_of_neg _ (by simp [hku])]
  | cons p rest ih =>
    rw [List.cons_append]
    by_cases hpu : (p.1 == u) = true
    · unfold dictLookup
      rw [List.find?_cons_of_pos _ (by simpa using hpu),
          List.find?_cons_of_pos _ (by simpa using hpu)]
    · unfold dictLookup
      rw [List.find?_cons_of_neg _ (by simpa using hpu),
          List.find?_cons_of_neg _ (by simpa using hpu)]
      exact ih

/-- Assigning key `k` leaves the lookup of every other key unchanged. -/
theorem dictLookup_insert_other (d : List (String × String)) (k v u : String)
    (h : ¬ u = k) :
    dictLookup (dictInsert d k v) u = dictLookup d u := by
  unfold dictInsert
  by_cases ha : d.any (fun x => x.1 == k)
  · rw [if_pos ha]; exact dictLookup_map_replace_other d k v u h
  · rw [if_neg ha]; exact dictLookup_append_other d k v u h

/-- Closed form of the download loop: the dictionary it returns maps a
URL `u` to its final local path exactly when `u` occurs in the remaining
URL list and its fetch succeeds, and otherwise behaves as the dictionary
it started from.  In particular each entry depends only on that URL's
own fetch, decode, extension and name oracles. -/
theorem downloadLoop_lookup (env : ImgEnv) (dp : String) (total : Nat)
    (urls : List String) : ∀ (i : Nat) (w : BuildState)
    (d : List (String × String)) (u : String),
    dictLookup (downloadLoop env dp total urls i w d).2 u
      = if urls.contains u && env.fetchOk u then some (finalPathOf env dp u)
        else dictLookup d u := by
  induction urls with
  | nil =>
    intro i w d u
    simp [downloadLoop]
  | cons u0 rest ih =>
    intro i w d u
    simp only [downloadLoop]
    by_cases h0 : env.fetchOk u0
    · by_cases hd0 : env.decodeOk u0
      · simp only [h0, hd0, if_true]
        rw [ih]
        by_cases hu : u = u0
        · subst hu
          by_cases hr : rest.contains u
          · simp only [hr, h0, Bool.and_self, if_true, List.contains_cons,
              BEq.refl, Bool.true_or, Bool.true_and]
          · simp only [hr, h0, Bool.false_and, Bool.false_eq_true, if_false,
              List.contains_cons, BEq.refl, Bool.true_or, Bool.true_and, if_true]
            rw [dictLookup_insert_self]
            simp [finalPathOf, hd0]
        · rw [dictLookup_insert_other _ _ _ _ hu]
          have hc : ((u0 :: rest).contains u) = rest.contains u := by
            simp only [List.contains_cons,
              show (u == u0) = false from beq_eq_false_iff_ne.mpr hu,
              show (u0 == u) = false from
                beq_eq_false_iff_ne.mpr (fun he => hu he.symm),
              Bool.false_or, Bool.or_false]
          rw [hc]
      · simp only [h0, hd0, if_true, Bool.false_eq_true, if_false]
        rw [ih]
        by_cases hu : u = u0
        · subst hu
          by_cases hr : rest.contains u
          · simp only [hr, h0, Bool.and_self, if_true, List.contains_cons,
              BEq.refl, Bool.true_or, Bool.true_and]
          · simp only [hr, h0, Bool.false_and, Bool.false_eq_true, if_false,
              List.contains_cons, BEq.refl, Bool.true_or, Bool.true_and, if_true]
            rw [dictLookup_insert_self]
            simp [finalPathOf, hd0]
        · rw [dictLookup_insert_other _ _ _ _ hu]
          have hc : ((u0 :: rest).contains u) = rest.contains u := by
            simp only [List.contains_cons,
              show (u == u0) = false from beq_eq_false_iff_ne.mpr hu,
              show (u0 == u) = false from
                beq_eq_false_iff_ne.mpr (fun he => hu he.symm),
              Bool.false_or, Bool.or_false]
          rw [hc]
    · simp only [h0, Bool.false_eq_true, if_false]
      rw [ih]
      by_cases hu : u = u0
      · subst hu
        simp [h0]
      · have hc : ((u0 :: rest).contains u) = rest.contains u := by
          simp only [List.contains_cons,
            show (u == u0) = false from beq_eq_false_iff_ne.mpr hu,
            show (u0 == u) = false from
              beq_eq_false_iff_ne.mpr (fun he => hu he.symm),
            Bool.false_or, Bool.or_false]
        rw [hc]

/-- The key count of the dictionary model as a countP. -/
theorem countKey_eq_countP (d : List (String × String)) (k : String) :
    countKey d k = d.countP (fun p => p.1 == k) :=
  (List.countP_eq_length_filter _ _).symm

/-- The in-place replacement `d[k] = v` preserves every key count. -/
theorem countKey_map_replace (d : List (String × String)) (k v u : String) :
    countKey (d.map (fun x => if x.1 == k then (k, v) else x)) u = countKey d u := by
  rw [countKey_eq_countP, countKey_eq_countP]
  induction d with
  | nil => rfl
  | cons p rest ih =>
    simp only [List.map_cons, List.countP_cons]
    rw [ih]
    congr 1
    by_cases hp : (p.1 == k) = true
    · have hpk : p.1 = k := by simpa using hp
      rw [if_pos hp]
      simp [hpk]
    · rw [if_neg hp]

/-- A dictionary without key `k` has key count zero at `k`. -/
theorem countKey_zero_of_not_any (d : List (String × String)) (k : String)
    (h : d.any (fun x => x.1 == k) = false) : countKey d k = 0 := by
  rw [countKey_eq_countP]
  exact List.countP_eq_zero.mpr (List.any_eq_false.mp h)

/-- Python-dict assignment preserves the at-most-one-entry-per-key
invariant. -/
theorem countKey_insert_le (d : List (String × String)) (k v : String)
    (h : ∀ u, countKey d u ≤ 1) (u : String) : countKey (dictInsert d k v) u ≤ 1 := by
  unfold dictInsert
  by_cases ha : d.any (fun x => x.1 == k)
  · rw [if_pos ha, countKey_map_replace]
    exact h u
  · rw [if_neg ha, countKey_eq_countP, List.countP_append,
        ← countKey_eq_countP, ← countKey_eq_countP]
    by_cases hku : u = k
    · subst hku
      have h0 : countKey d u = 0 := countKey_zero_of_not_any d u (Bool.eq_false_iff.mpr ha)
      have h1 : countKey [(u, v)] u ≤ 1 := by simp [countKey]
      omega
    · have h1 : countKey [(k, v)] u = 0 := by
        simp [countKey, List.filter_cons,
          show (k == u) = false from beq_eq_false_iff_ne.mpr (fun he => hku he.symm)]
      have h2 := h u
      omega

/-- The download loop preserves the at-most-one-entry-per-key
invariant. -/
theorem downloadLoop_countKey (env : ImgEnv) (dp : String) (total : Nat)
    (urls : List String) : ∀ (i : Nat) (w : BuildState) (d : List (String × String)),
    (∀ u, countKey d u ≤ 1) →
    ∀ u, countKey (downloadLoop env dp total urls i w d).2 u ≤ 1 := by
  induction urls with
  | nil =>
    intro i w d h u
    simpa [downloadLoop] using h u
  | cons u0 rest ih =>
    intro i w d h u
    simp only [downloadLoop]
    by_cases h0 : env.fetchOk u0
    · by_cases hd0 : env.decodeOk u0
      · simp only [h0, hd0, if_true]
        exact ih _ _ _ (countKey_insert_le d u0 _ h) u
      · simp only [h0, hd0, Bool.false_eq_true, if_false, if_true]
        exact ih _ _ _ (countKey_insert_le d u0 _ h) u
    · simp only [h0, Bool.false_eq_true, if_false]
      exact ih _ _ _ h u

/-- C6: in the acquisition step, a URL whose fetch fails is absent from
the returned URL-to-path dictionary; the entry of every other URL
depends only on that URL's own oracles (so one URL's failure leaves the
rest unaffected); and the dictionary holds at most one entry per
distinct URL. -/
theorem c6_acquisition_isolation (env : ImgEnv) (images : List String) (dp : String)
    (w : BuildState) (U : String) (hU : env.fetchOk U = false) :
    dictLookup (temp_download_images env images dp w).2 U = none
    ∧ (∀ (envB : ImgEnv) (u : String),
        envB.fetchOk u = env.fetchOk u → envB.decodeOk u = env.decodeOk u →
        envB.ext u = env.ext u → envB.safeName u = env.safeName u →
        dictLookup (temp_download_images envB images dp w).2 u
          = dictLookup (temp_download_images env images dp w).2 u)
    ∧ (∀ u, countKey (temp_download_images env images dp w).2 u ≤ 1) := by
  refine ⟨?_, ?_, ?_⟩
  · simp only [temp_download_images]
    rw [downloadLoop_lookup]
    simp [hU, dictLookup]
  · intro envB u hf hd he hn
    simp only [temp_download_images]
    rw [downloadLoop_lookup, downloadLoop_lookup]
    rw [hf]
    have hfp : finalPathOf envB dp u = finalPathOf env dp u := by
      unfold finalPathOf
      rw [hd, he, hn]
    rw [hfp]
  · intro u
    simp only [temp_download_images]
    exact downloadLoop_countKey env dp images.length images 0 _ [] (by simp [countKey]) u

/-- C6 witness: acquisition run on the two URLs bad (fetch fails) and
good (fetch succeeds): bad is absent from the dictionary, the entry of
good is unchanged when only the oracles at bad differ, and key counts
are at most one. -/
theorem c6_acquisition_isolation_witness :
    dictLookup (temp_download_images envW ["bad", "good"] "temp/u/temp_images" {}).2 "bad"
      = none
    ∧ dictLookup (temp_download_images envW ["bad", "good"] "temp/u/temp_images" {}).2 "good"
      = dictLookup (temp_download_images envW ["bad", "good"] "temp/u/temp_images" {}).2 "good"
    ∧ countKey (temp_download_images envW ["bad", "good"] "temp/u/temp_images" {}).2 "good" ≤ 1 :=
  ⟨(c6_acquisition_isolation envW ["bad", "good"] "temp/u/temp_images" {} "bad" (by decide)).1,
   (c6_acquisition_isolation envW ["bad", "good"] "temp/u/temp_images" {} "bad" (by decide)).2.1
     envW "good" rfl rfl rfl rfl,
   (c6_acquisition_isolation envW ["bad", "good"] "temp/u/temp_images" {} "bad" (by decide)).2.2
     "good"⟩

/-- Fuel irrelevance of the inline scan: any fuel exceeding the length
of the remaining text yields the same run list, because every iteration
that continues strictly shortens the remaining text. -/
theorem inlineScanFuel_fuel_irrel :
    ∀ (f : Nat) (l : List Char) (g : Nat), l.length < f → l.length < g →
      inlineScanFuel f l = inlineScanFuel g l := by
  intro f
  induction f with
  | zero => intro l g hf hg; omega
  | succ f ih =>
    intro l g hf hg
    cases g with
    | zero => omega
    | succ g =>
      by_cases hl : l = []
      · subst hl; simp [inlineScanFuel]
      · have hl0 : 0 < l.length := List.length_pos.mpr hl
        simp only [inlineScanFuel, if_neg hl]
        cases hb : boldSpan l with
        | some p =>
          obtain ⟨bs, k⟩ := p
          have hr : (l.drop (bs + 2 + k + 2)).length < l.length := by
            rw [List.length_drop]; omega
          dsimp only
          rw [ih (l.drop (bs + 2 + k + 2)) g (by omega) (by omega)]
        | none =>
          cases hi : italicSpan l with
          | some t =>
            obtain ⟨m, istart, k⟩ := t
            have hr : (l.drop (istart + 1 + k + 1)).length < l.length := by
              rw [List.length_drop]; omega
            dsimp only
            rw [ih (l.drop (istart + 1 + k + 1)) g (by omega) (by omega)]
          | none => rfl

/-- C10: the inline-formatting scan terminates and is a total function:
running it with the canonical fuel (length plus one) already reaches the
fixed point -- any extra fuel yields the same result -- and each
consumed bold or italic span strictly shortens the remaining text (the
closing marker lies strictly after the opening one, so the drop is of at
least one character). -/
theorem c10_inline_scan_terminates :
    (∀ (l : List Char) (extra : Nat),
      inlineScanFuel (l.length + 1 + extra) l = interpretInline l)
    ∧ (∀ (l : List Char) (bs k : Nat), boldSpan l = some (bs, k) → ¬ l = [] →
        (l.drop (bs + 2 + k + 2)).length < l.length)
    ∧ (∀ (l : List Char) (m : Char) (istart k : Nat),
        italicSpan l = some (m, istart, k) → ¬ l = [] →
        (l.drop (istart + 1 + k + 1)).length < l.length) := by
  refine ⟨?_, ?_, ?_⟩
  · intro l extra
    exact inlineScanFuel_fuel_irrel (l.length + 1 + extra) l (l.length + 1)
      (by omega) (by omega)
  · intro l bs k _ hl
    have hl0 : 0 < l.length := List.length_pos.mpr hl
    rw [List.length_drop]; omega
  · intro l m istart k _ hl
    have hl0 : 0 < l.length := List.length_pos.mpr hl
    rw [List.length_drop]; omega

/-- C10 witness: the termination facts instantiated on concrete inputs:
extra fuel does not change the scan of "a **b** c", and the matched
spans of "**a**b" and "_x_y" strictly shorten the text. -/
theorem c10_inline_scan_terminates_witness :
    inlineScanFuel ("a **b** c".toList.length + 1 + 7) ("a **b** c".toList)
      = interpretInline ("a **b** c".toList)
    ∧ ("**a**b".toList.drop (0 + 2 + 1 + 2)).length < "**a**b".toList.length
    ∧ ("_x_y".toList.drop (0 + 1 + 1 + 1)).length < "_x_y".toList.length :=
  ⟨c10_inline_scan_terminates.1 ("a **b** c".toList) 7,
   c10_inline_scan_terminates.2.1 ("**a**b".toList) 0 1 (by decide) (by decide),
   c10_inline_scan_terminates.2.2 ("_x_y".toList) '_' 0 1 (by decide) (by decide)⟩
